import Mathlib

/-!
Verification development for the nutri-bot repository.

The live HTTP route is src/app/api/chat/route.ts; src/unnamed/part_000 is the
Next.js middleware and src/unnamed/part_001 an earlier revision of the chat
route.  This file gives a shallow embedding of the server-side data model and
operations: the in-memory rate limiter, the zod request validation, the BMI
based nutritional-context generator, the conversation store, and the POST/GET
handlers of both route revisions.  JavaScript numbers are modelled as Nat or
as rationals, timestamps as Nat milliseconds, the Mongo collection as a map
from sessionId to the stored conversation document, and the external Gemini
call as an oracle value describing its outcome.
-/


/-- Membership of a string pattern inside another string, at the level of the
underlying character lists (used to state that error messages mention the
failing field). -/
def containsStr (s sub : String) : Prop :=
  ∃ a b : List Char, s.data = a ++ sub.data ++ b

/-- JavaScript Array.prototype.join with a separator, as used on the zod
error list in route.ts (line 358 and 609). -/
def joinSep (sep : String) : List String → String
  | [] => ""
  | [x] => x
  | x :: y :: t => x ++ sep ++ joinSep sep (y :: t)

/-- Whether the pattern starts the input, compared exactly. -/
def startsWithList : List Char → List Char → Bool
  | [], _ => true
  | _ :: _, [] => false
  | p :: ps, c :: cs => p == c && startsWithList ps cs

/-- Whether the pattern occurs anywhere in the input. -/
def containsList (pat : List Char) : List Char → Bool
  | [] => pat.isEmpty
  | c :: cs => startsWithList pat (c :: cs) || containsList pat cs

/-- JavaScript String.prototype.includes, used by the outer catch of POST
(route.ts lines 613-619). -/
def strIncludes (s pat : String) : Bool := containsList pat.data s.data

/-- The whitespace characters removed by String.prototype.trim (the
principal members of the JavaScript WhiteSpace and LineTerminator
classes). -/
def isJsTrimWhite (c : Char) : Bool :=
  c == ' ' || c == '\t' || c == '\n' || c == '\r' ||
  c == Char.ofNat 11 || c == Char.ofNat 12 || c == Char.ofNat 160 ||
  c == Char.ofNat 0xfeff

/-- JavaScript String.prototype.trim. -/
def jsTrim (s : String) : String :=
  String.mk (((s.data.dropWhile isJsTrimWhite).reverse.dropWhile isJsTrimWhite).reverse)

/-- Split a character list on a separator character (String.split on a
one-character separator). -/
def splitChar (sep : Char) : List Char → List Char → List (List Char)
  | [], acc => [acc.reverse]
  | c :: cs, acc =>
    if c == sep then acc.reverse :: splitChar sep cs []
    else splitChar sep cs (c :: acc)

/-- Point update of a map modelling a keyed Mongo collection or the rate
limiter Map. -/
def mapSet {α : Type} (m : String → Option α) (k : String) (v : α) :
    String → Option α :=
  fun k2 => if k2 = k then some v else m k2

-- ### Rate limiter (route.ts lines 77-118)

/-- One record of the RateLimiter requests Map: count of admitted requests in
the current window and the window expiry time. -/
structure RLRecord where
  count : Nat
  resetTime : Nat
deriving DecidableEq

/-- The RateLimiter requests Map, keyed by client identifier. -/
def RLState := String → Option RLRecord

/-- Return value of RateLimiter.isAllowed. -/
structure RLResult where
  allowed : Bool
  resetTime : Option Nat
deriving DecidableEq

namespace RateLimiter

/-- MAX_REQUESTS (route.ts line 81). -/
def MAX_REQUESTS : Nat := 50

/-- WINDOW_MS, one hour in milliseconds (route.ts line 82). -/
def WINDOW_MS : Nat := 60 * 60 * 1000

/-- RateLimiter.isAllowed (route.ts lines 84-108).  Date.now() is passed in
as the argument now; the mutated Map is returned alongside the result. -/
def isAllowed (st : RLState) (identifier : String) (now : Nat) :
    RLState × RLResult :=
  match st identifier with
  | none => (mapSet st identifier ⟨1, now + WINDOW_MS⟩, ⟨true, none⟩)
  | some record =>
    if now > record.resetTime then
      (mapSet st identifier ⟨1, now + WINDOW_MS⟩, ⟨true, none⟩)
    else if record.count ≥ MAX_REQUESTS then
      (st, ⟨false, some record.resetTime⟩)
    else
      (mapSet st identifier ⟨record.count + 1, record.resetTime⟩, ⟨true, none⟩)

end RateLimiter

/-- Iterate RateLimiter.isAllowed for one identifier over a list of call
times, collecting the results in order. -/
def runIsAllowed (st : RLState) (id : String) : List Nat → RLState × List RLResult
  | [] => (st, [])
  | t :: ts =>
    let step := RateLimiter.isAllowed st id t
    let rest := runIsAllowed step.1 id ts
    (rest.1, step.2 :: rest.2)

-- ### Text sanitisation (route.ts lines 458-461 and 559-562)

/-- Case-insensitive comparison of two characters, as performed by the /i
regex flag. -/
def lowerEq (a b : Char) : Bool := a.toLower == b.toLower

/-- Whether the pattern starts the input, compared case-insensitively. -/
def startsWithCI : List Char → List Char → Bool
  | [], _ => true
  | _ :: _, [] => false
  | p :: ps, c :: cs => lowerEq p c && startsWithCI ps cs

/-- Characters a bare regex dot does not match in JavaScript (no s flag). -/
def isJsLineTerminator (c : Char) : Bool :=
  c == '\n' || c == '\r' || c == Char.ofNat 0x2028 || c == Char.ofNat 0x2029

/-- Scan for the first case-insensitive close tag of a script element; the
lazy .*? of the regex cannot cross a line terminator.  Returns the number of
characters consumed up to and including the close tag. -/
def findCloseScript : List Char → Option Nat
  | [] => none
  | c :: cs =>
    if startsWithCI "</script>".data (c :: cs) then some 9
    else if isJsLineTerminator c then none
    else (findCloseScript cs).map (· + 1)

/-- Given the characters after a literal < that might open a script element,
try to match the remainder of one /<script[^>]*>.*?<\/script>/i occurrence;
returns how many characters after the < it spans. -/
def tryScript (cs : List Char) : Option Nat :=
  if startsWithCI "script".data cs then
    let afterName := cs.drop 6
    let k := (afterName.takeWhile (fun d => d != '>')).length
    if k < afterName.length then
      match findCloseScript (afterName.drop (k + 1)) with
      | some m => some (6 + k + 1 + m)
      | none => none
    else none
  else none

/-- Global replacement of /<script[^>]*>.*?<\/script>/gi by the empty string,
character-list level. -/
def stripScriptsAux : List Char → List Char
  | [] => []
  | c :: cs =>
    if c == '<' then
      match tryScript cs with
      | some n => stripScriptsAux (cs.drop n)
      | none => '<' :: stripScriptsAux cs
    else c :: stripScriptsAux cs
termination_by l => l.length
decreasing_by
  · simp only [List.length_drop, List.length_cons]
    omega
  · simp [List.length_cons]
  · simp [List.length_cons]

/-- Global replacement of /<[^>]+>/g by the empty string: a tag needs at
least one non > character and a closing >. -/
def stripTagsAux : List Char → List Char
  | [] => []
  | c :: cs =>
    if c == '<' then
      let k := (cs.takeWhile (fun d => d != '>')).length
      if 1 ≤ k ∧ k < cs.length then stripTagsAux (cs.drop (k + 1))
      else '<' :: stripTagsAux cs
    else c :: stripTagsAux cs
termination_by l => l.length
decreasing_by
  · simp only [List.length_drop, List.length_cons]
    omega
  · simp [List.length_cons]
  · simp [List.length_cons]

/-- Global case-insensitive removal of a fixed nonempty pattern, modelling
String.replace with a /gi regex of plain characters. -/
def removeAllCI (p0 : Char) (prest : List Char) : List Char → List Char
  | [] => []
  | c :: cs =>
    if startsWithCI (p0 :: prest) (c :: cs) then
      removeAllCI p0 prest (cs.drop prest.length)
    else c :: removeAllCI p0 prest cs
termination_by l => l.length
decreasing_by
  · simp only [List.length_drop, List.length_cons]
    omega
  · simp [List.length_cons]

/-- Sanitisation of the user message (route.ts lines 458-461): script
elements removed, then all remaining tags, then trim. -/
def sanitizeUserMessage (s : String) : String :=
  jsTrim (String.mk (stripTagsAux (stripScriptsAux s.data)))

/-- Sanitisation of the model reply (route.ts lines 559-562): script
elements removed, then every case-insensitive occurrence of the string
javascript: is removed, then trim. -/
def sanitizeBotReply (s : String) : String :=
  jsTrim (String.mk (removeAllCI 'j' "avascript:".data (stripScriptsAux s.data)))

-- ### Nutritional context generator (route.ts lines 219-250)

/-- The category and advisory sentence computed by
generateNutritionalContext, together with the computed IMC.  The final
template string (route.ts lines 247-249) interpolates imc.toFixed(1), a
floating-point decimal rendering that no claim depends on; the selection
logic is modelled exactly, over exact rationals. -/
structure NutritionalContext where
  imc : ℚ
  imcCategory : String
  recommendations : String
deriving DecidableEq

/-- generateNutritionalContext (route.ts lines 219-250).  heightNum converts
centimetres to metres; imc is weight divided by the squared height. -/
def generateNutritionalContext (age weight height : ℚ) : NutritionalContext :=
  let heightNum := height / 100
  let imc := weight / (heightNum * heightNum)
  if imc < 18.5 then
    ⟨imc, "Bajo peso",
      "Se recomienda aumentar la ingesta calórica con alimentos nutritivos."⟩
  else if 18.5 ≤ imc ∧ imc < 25 then
    ⟨imc, "Peso normal",
      "Mantener una dieta equilibrada y actividad física regular."⟩
  else if 25 ≤ imc ∧ imc < 30 then
    ⟨imc, "Sobrepeso",
      "Se recomienda reducir calorías y aumentar la actividad física."⟩
  else
    ⟨imc, "Obesidad",
      "Es importante consultar con un profesional y seguir un plan nutricional estructurado."⟩

/-- The advisory string built from the context, standing for the template
string of route.ts lines 247-249 (exact rational rendering in place of
toFixed(1)). -/
def nutritionalContextString (age weight height : ℚ) : String :=
  let n := generateNutritionalContext age weight height
  "IMC calculado: " ++ toString n.imc ++ " (" ++ n.imcCategory ++ "). " ++
    n.recommendations

-- ### Request validation (route.ts lines 125-171): the zod schemas

/-- Raw request fields as read from the JSON body or the multipart form;
absent fields are none (the schemas expect string values for every field). -/
structure RawFields where
  message : Option String
  name : Option String
  age : Option String
  weight : Option String
  height : Option String
  sessionId : Option String
deriving DecidableEq

/-- Decimal digit test, the character class of the /^\d+$/ checks. -/
def isDigitChar (c : Char) : Bool := '0' ≤ c && c ≤ '9'

/-- Nonempty all-digit string: /^\d+$/. -/
def isDigitString (s : String) : Bool := s.length ≥ 1 && s.data.all isDigitChar

/-- parseInt on an all-digit string. -/
def parseDigits (s : String) : Nat :=
  s.data.foldl (fun n c => n * 10 + (c.toNat - '0'.toNat)) 0

/-- The weight pattern /^\d+(\.\d{1,2})?$/: an integer part and at most two
decimals. -/
def isWeightString (s : String) : Bool :=
  match splitChar '.' s.data [] with
  | [i] => i.length ≥ 1 && i.all isDigitChar
  | [i, f] => (i.length ≥ 1 && i.all isDigitChar) &&
      (f.length ≥ 1 && f.all isDigitChar) && f.length ≤ 2
  | _ => false

/-- parseFloat on a string matching the weight pattern, as an exact
rational. -/
def parseWeight (s : String) : ℚ :=
  match splitChar '.' s.data [] with
  | [i] => (parseDigits (String.mk i) : ℚ)
  | [i, f] => (parseDigits (String.mk i) : ℚ) +
      (parseDigits (String.mk f) : ℚ) / (10 : ℚ) ^ f.length
  | _ => 0

/-- The character class of the name regex: ASCII letters, the Spanish
accented vowels and enye in both cases, and whitespace (the principal
members of the JavaScript \s class). -/
def isNameChar (c : Char) : Bool :=
  ('a' ≤ c && c ≤ 'z') || ('A' ≤ c && c ≤ 'Z') ||
  "áéíóúÁÉÍÓÚñÑ".data.contains c ||
  c == ' ' || c == '\t' || c == '\n' || c == '\r' ||
  c == Char.ofNat 11 || c == Char.ofNat 12 || c == Char.ofNat 160

/-- The sessionId character class [a-zA-Z0-9_-]. -/
def isSessionIdChar (c : Char) : Bool :=
  ('a' ≤ c && c ≤ 'z') || ('A' ≤ c && c ≤ 'Z') || isDigitChar c ||
  c == '_' || c == '-'

/-- Issues reported for the optional message field (max 2000, then the
trim-or-empty transform applies only on success). -/
def messageErrors : Option String → List String
  | none => []
  | some s => if s.length > 2000 then ["Mensaje demasiado largo"] else []

/-- Issues reported for sessionId (required; min 1, max 100, regex). -/
def sessionIdErrors : Option String → List String
  | none => ["Required"]
  | some s =>
    (if s.length < 1 then ["SessionId requerido"] else []) ++
    (if s.length > 100 then ["SessionId demasiado largo"] else []) ++
    (if !(s.length ≥ 1 && s.data.all isSessionIdChar) then
      ["SessionId contiene caracteres inválidos"] else [])

/-- Issues reported for name (required; min 2, max 100, regex). -/
def nameErrors : Option String → List String
  | none => ["Required"]
  | some s =>
    (if s.length < 2 then ["Nombre debe tener al menos 2 caracteres"] else []) ++
    (if s.length > 100 then ["Nombre demasiado largo"] else []) ++
    (if !(s.length ≥ 1 && s.data.all isNameChar) then
      ["Nombre contiene caracteres inválidos"] else [])

/-- Issues reported for age: the digit regex, then on success the 1..120
refinement on the parsed integer. -/
def ageErrors : Option String → List String
  | none => ["Required"]
  | some s =>
    if !(isDigitString s) then ["Edad debe ser numérica"]
    else if !(1 ≤ parseDigits s && parseDigits s ≤ 120) then
      ["Edad debe estar entre 1 y 120 años"]
    else []

/-- Issues reported for weight: the decimal regex, then the 20..300
refinement on the parsed number. -/
def weightErrors : Option String → List String
  | none => ["Required"]
  | some s =>
    if !(isWeightString s) then ["Peso debe ser numérico"]
    else if !((20 : ℚ) ≤ parseWeight s && parseWeight s ≤ 300) then
      ["Peso debe estar entre 20 y 300 kg"]
    else []

/-- Issues reported for height: the digit regex, then the 100..250
refinement on the parsed integer. -/
def heightErrors : Option String → List String
  | none => ["Required"]
  | some s =>
    if !(isDigitString s) then ["Altura debe ser numérica"]
    else if !(100 ≤ parseDigits s && parseDigits s ≤ 250) then
      ["Altura debe estar entre 100 y 250 cm"]
    else []

/-- All issues of RequestBodySchema.parse in shape order
(message, sessionId merged with name, age, weight, height), each tagged with
its field path. -/
def allFieldErrors (raw : RawFields) : List (String × String) :=
  (messageErrors raw.message).map (fun m => ("message", m)) ++
  (sessionIdErrors raw.sessionId).map (fun m => ("sessionId", m)) ++
  (nameErrors raw.name).map (fun m => ("name", m)) ++
  (ageErrors raw.age).map (fun m => ("age", m)) ++
  (weightErrors raw.weight).map (fun m => ("weight", m)) ++
  (heightErrors raw.height).map (fun m => ("height", m))

/-- The parsed request on validation success: the message transform yields
the trimmed message or the empty string, the numeric fields their parsed
values. -/
structure ValidatedRequest where
  message : String
  sessionId : String
  name : String
  age : Nat
  weight : ℚ
  height : Nat
deriving DecidableEq

/-- RequestBodySchema.parse: either every field issue (a ZodError holds all
of them) or the validated, transformed request. -/
def validateAll (raw : RawFields) : Except (List (String × String)) ValidatedRequest :=
  match allFieldErrors raw with
  | [] => .ok
      { message := jsTrim (raw.message.getD "")
        sessionId := raw.sessionId.getD ""
        name := raw.name.getD ""
        age := parseDigits (raw.age.getD "")
        weight := parseWeight (raw.weight.getD "")
        height := parseDigits (raw.height.getD "") }
  | errs => .error errs

/-- The aggregated 400 message: errors mapped to path: message and joined
with a comma (route.ts lines 356-358 and 607-610). -/
def formatZodErrors (errs : List (String × String)) : String :=
  "❌ Datos inválidos: " ++ joinSep ", " (errs.map (fun e => e.1 ++ ": " ++ e.2))

-- ### Conversation data model (route.ts lines 173-204)

/-- One content part: text, or inline image data (mime type and base64
payload).  Named Part in route.ts. -/
inductive MsgPart
  | text (t : String)
  | inlineData (mimeType : String) (data : String)
deriving DecidableEq

/-- One history entry (ConversationHistory in route.ts). -/
structure Turn where
  role : String
  parts : List MsgPart
deriving DecidableEq

/-- The userInfo subdocument. -/
structure UserInfo where
  name : String
  age : Nat
  weight : ℚ
  height : Nat
deriving DecidableEq

/-- The stored conversation document (the Mongo ObjectId field is not
modelled; documents are addressed by sessionId). -/
structure Conversation where
  sessionId : String
  userInfo : UserInfo
  history : List Turn
  createdAt : Nat
  updatedAt : Nat
deriving DecidableEq

/-- The conversations collection, keyed by sessionId. -/
def DbState := String → Option Conversation

-- ### System prompt (route.ts lines 252-285)

/-- createSystemPrompt: the one-time system text with the patient data and
the nutritional context (numbers rendered by toString in place of template
interpolation). -/
def createSystemPrompt (u : UserInfo) : String :=
  "Eres el Dr. NutriBot, un nutricionista experto y empático especializado en brindar consejos nutricionales personalizados.\n\n" ++
  "  DATOS DEL PACIENTE:\n" ++
  "  - Nombre: " ++ u.name ++ "\n" ++
  "  - Edad: " ++ toString u.age ++ " años\n" ++
  "  - Peso: " ++ toString u.weight ++ " kg\n" ++
  "  - Estatura: " ++ toString u.height ++ " cm\n" ++
  "  - " ++ nutritionalContextString (u.age) (u.weight) (u.height) ++ "\n\n" ++
  "  INSTRUCCIONES IMPORTANTES:\n" ++
  "  1. Siempre mantén el foco en nutrición, alimentación saludable y bienestar\n" ++
  "  2. Proporciona consejos prácticos y personalizados basados en los datos del paciente\n" ++
  "  3. Usa un tono profesional pero amigable y comprensible\n" ++
  "  4. Si te preguntan sobre temas no relacionados con nutrición, redirige amablemente hacia temas nutricionales\n" ++
  "  5. Nunca diagnostiques enfermedades, solo brinda consejos nutricionales generales\n" ++
  "  6. Si detectas una situación que requiere atención médica urgente, recomienda consultar a un profesional\n" ++
  "  7. Sé conciso pero informativo - evita respuestas demasiado largas a menos que se solicite información detallada\n" ++
  "  8. Incluye consejos prácticos que el paciente pueda implementar fácilmente\n" ++
  "  9. Considera la edad del paciente para ajustar las recomendaciones apropiadamente\n\n" ++
  "  Recuerda: Tu objetivo es educar y motivar hacia hábitos alimentarios más saludables de manera personalizada."

/-- The synthesized first history entry of a new conversation
(route.ts lines 439-444): a user-role turn holding the system prompt. -/
def systemTurn (u : UserInfo) : Turn :=
  ⟨"user", [MsgPart.text (createSystemPrompt u)]⟩

/-- The userInfo stored for a validated request. -/
def userInfoOf (v : ValidatedRequest) : UserInfo :=
  ⟨v.name, v.age, v.weight, v.height⟩

/-- The new conversation document inserted for an unknown sessionId
(route.ts lines 430-449). -/
def newConversation (v : ValidatedRequest) (now : Nat) : Conversation :=
  { sessionId := v.sessionId
    userInfo := userInfoOf v
    history := [systemTurn (userInfoOf v)]
    createdAt := now
    updatedAt := now }

-- ### The external Gemini call, modelled as an oracle

/-- One part of a Gemini candidate content. -/
structure GeminiPartJson where
  text : Option String
deriving DecidableEq

/-- The content of a Gemini candidate. -/
structure GeminiContentJson where
  parts : List GeminiPartJson
deriving DecidableEq

/-- One Gemini candidate. -/
structure GeminiCandidateJson where
  content : Option GeminiContentJson
deriving DecidableEq

/-- A parsed successful Gemini response body. -/
structure GeminiBody where
  candidates : List GeminiCandidateJson
deriving DecidableEq

/-- The optional-chain extraction
geminiData?.candidates?.[0]?.content?.parts?.[0]?.text
(route.ts line 551). -/
def extractBotReply (b : GeminiBody) : Option String :=
  (((b.candidates.head?).bind (fun c => c.content)).bind
      (fun c => c.parts.head?)).bind (fun p => p.text)

/-- Fallback reply used when the extraction yields nothing truthy
(route.ts lines 553-556). -/
def fallbackReply : String :=
  "Lo siento, no pude generar una respuesta clara. ¿Podrías reformular tu pregunta nutricional?"

/-- The raw reply before sanitisation: the extracted text unless it is
absent or empty (falsy), in which case the fallback. -/
def rawBotReply (b : GeminiBody) : String :=
  match extractBotReply b with
  | none => fallbackReply
  | some t => if t = "" then fallbackReply else t

/-- The reply sent to the client on success: extraction with fallback, then
sanitisation (route.ts lines 551-562). -/
def botReplyOf (b : GeminiBody) : String := sanitizeBotReply (rawBotReply b)

/-- Outcome of the awaited fetch to the Gemini endpoint: a parsed 2xx body,
a non-2xx status, an abort (the 30 second timer or a client abort), or a
thrown network error carrying its message. -/
inductive GeminiOutcome
  | ok (body : GeminiBody)
  | httpError (status : Nat)
  | aborted
  | networkError (msg : String)
deriving DecidableEq

/-- The user-facing message for a non-2xx Gemini status
(route.ts lines 531-540). -/
def geminiErrorMessage (status : Nat) : String :=
  if status = 503 then
    "🤖 El servicio de IA está temporalmente sobrecargado. Por favor, intenta nuevamente en unos minutos."
  else if status = 429 then
    "⏳ El servicio está temporalmente ocupado. Intenta nuevamente en unos momentos."
  else if status = 400 then
    "❌ Error en el formato de la consulta. Por favor, reformula tu pregunta."
  else "❌ Error al procesar tu consulta nutricional."

/-- The outer catch of POST (route.ts lines 599-635) for a thrown Error that
is not a ZodError: the message depends on the thrown text, the status is
500.  The development-only error detail field is not modelled (production
behaviour). -/
def outerCatchMessage (msg : String) : String :=
  if strIncludes msg "fetch" then
    "🌐 Error de conectividad. Verifica tu conexión a internet."
  else if strIncludes msg "MongoDB" || strIncludes msg "mongo" then
    "💾 Error de base de datos. Intenta nuevamente en unos momentos."
  else "❌ Error interno del servidor. Por favor, intenta nuevamente."

-- ### Request parsing and the POST handler (route.ts lines 287-637)

/-- An uploaded image file: mime type, byte size, and its base64 payload
(the Buffer conversion of route.ts lines 392-394 is represented by the
payload string itself). -/
structure ImageFile where
  mimeType : String
  size : Nat
  data : String
deriving DecidableEq

/-- The request body, discriminated by content type as in route.ts
lines 337-401. -/
inductive ReqBody
  | json (raw : RawFields)
  | multipart (raw : RawFields) (image : Option ImageFile)
  | other
deriving DecidableEq

/-- An inbound request: the client address headers and the body. -/
structure Request where
  cfConnectingIp : Option String
  xRealIp : Option String
  xForwardedFor : Option String
  body : ReqBody
deriving DecidableEq

/-- forwarded.split(",")[0].trim() of route.ts line 295. -/
def firstForwardedEntry (f : String) : String :=
  jsTrim (String.mk ((splitChar ',' f.data []).headD []))

/-- getClientIP (route.ts lines 288-298): cf-connecting-ip, then x-real-ip,
then the first entry of x-forwarded-for, else unknown; an empty header value
is falsy and skipped. -/
def getClientIP (req : Request) : String :=
  match req.cfConnectingIp with
  | some ip =>
    if ip = "" then
      match req.xRealIp with
      | some ip2 => if ip2 = "" then
          (match req.xForwardedFor with
           | some f => if f = "" then "unknown" else ((f.splitOn ",").headD "").trim
           | none => "unknown")
        else ip2
      | none =>
        match req.xForwardedFor with
        | some f => if f = "" then "unknown" else ((f.splitOn ",").headD "").trim
        | none => "unknown"
    else ip
  | none =>
    match req.xRealIp with
    | some ip2 => if ip2 = "" then
        (match req.xForwardedFor with
         | some f => if f = "" then "unknown" else ((f.splitOn ",").headD "").trim
         | none => "unknown")
      else ip2
    | none =>
      match req.xForwardedFor with
      | some f => if f = "" then "unknown" else ((f.splitOn ",").headD "").trim
      | none => "unknown"

/-- The mime types admitted for an uploaded image
(route.ts lines 371-376). -/
def allowedImageTypes : List String :=
  ["image/jpeg", "image/jpg", "image/png", "image/webp"]

/-- Result of body parsing, schema validation and image checks: an early
400 rejection, or the validated request with the optional attached image
(mime type, base64 data). -/
inductive BodyOutcome
  | reject (status : Nat) (reply : String)
  | accepted (v : ValidatedRequest) (image : Option (String × String))
deriving DecidableEq

/-- Steps 2 of the POST lifecycle (route.ts lines 331-401): dispatch on the
content type, run RequestBodySchema.parse (its ZodError is answered with the
aggregated 400 in both branches), then validate the multipart image type and
size; an image of size 0 is ignored as falsy. -/
def processBody : ReqBody → BodyOutcome
  | .json raw =>
    match validateAll raw with
    | .error errs => .reject 400 (formatZodErrors errs)
    | .ok v => .accepted v none
  | .multipart raw image =>
    match validateAll raw with
    | .error errs => .reject 400 (formatZodErrors errs)
    | .ok v =>
      match image with
      | some img =>
        if img.size > 0 then
          if !(allowedImageTypes.contains img.mimeType) then
            .reject 400 "❌ Tipo de imagen no válido. Usa JPG, PNG o WebP."
          else if img.size > 5 * 1024 * 1024 then
            .reject 400 "❌ La imagen es demasiado grande. Tamaño máximo: 5MB."
          else .accepted v (some (img.mimeType, img.data))
        else .accepted v none
      | none => .accepted v none
  | .other => .reject 400 "❌ Tipo de contenido no soportado."

/-- The JSON answer of the POST handler: HTTP status and the body fields
used by the claims (reply, sessionId, presence of timestamp, resetTime for
429; the 429 rate-limit headers are not separately modelled). -/
structure ApiResponse where
  status : Nat
  reply : Option String
  sessionId : Option String
  timestamp : Bool
  resetTime : Option Nat
deriving DecidableEq

/-- Everything the POST call changes or produces: the response, the
conversations collection, the rate limiter map, and whether the Gemini
endpoint was reached. -/
structure PostResult where
  response : ApiResponse
  db : DbState
  rl : RLState
  geminiCalled : Bool

/-- The POST environment: the clock, the two process-wide states, and the
oracles for the Gemini call and for the final updateOne (updateOk false
means that await throws, with updateErrMsg the thrown message).  The find
and insert round trips are modelled as succeeding; the final update is the
failure mode the spec singles out. -/
structure Env where
  now : Nat
  rl : RLState
  db : DbState
  gemini : GeminiOutcome
  updateOk : Bool
  updateErrMsg : String

/-- The default text used when only an image is sent
(route.ts lines 453-455). -/
def imageOnlyMessage : String :=
  "He enviado una imagen, por favor analízala desde una perspectiva nutricional."

/-- The user turn appended to the history (route.ts lines 452-480): the
sanitized message under the fixed consultation header, plus the inline
image part when one was attached. -/
def userTurnOf (v : ValidatedRequest) (img : Option (String × String)) : Turn :=
  ⟨"user",
    [MsgPart.text ("Consulta nutricional: " ++
      sanitizeUserMessage (if v.message = "" then imageOnlyMessage else v.message))] ++
    (match img with
     | some (m, d) => [MsgPart.inlineData m d]
     | none => [])⟩

/-- The model turn appended on success (route.ts lines 565-568). -/
def modelTurnOf (b : GeminiBody) : Turn :=
  ⟨"model", [MsgPart.text (botReplyOf b)]⟩

/-- The collection state after session resolution (route.ts lines 417-450):
unchanged when the sessionId is found, otherwise holding the freshly
inserted new conversation.  This insert happens before the Gemini call. -/
def db1Of (v : ValidatedRequest) (env : Env) : DbState :=
  match env.db v.sessionId with
  | some _ => env.db
  | none => mapSet env.db v.sessionId (newConversation v env.now)

/-- The in-memory conversation the handler works on: the found document or
the freshly created one. -/
def convOf (v : ValidatedRequest) (env : Env) : Conversation :=
  match env.db v.sessionId with
  | some c => c
  | none => newConversation v env.now

/-- The session resolution, Gemini call and persistence steps of POST
(route.ts lines 411-598), entered after admission and validation. -/
def postCore (v : ValidatedRequest) (img : Option (String × String))
    (env : Env) (rl2 : RLState) : PostResult :=
  let db1 : DbState := db1Of v env
  let conv : Conversation := convOf v env
  let updatedHistory := conv.history ++ [userTurnOf v img]
  match env.gemini with
  | .aborted =>
    ⟨⟨408, some "⏰ La solicitud tardó demasiado. Intenta con un mensaje más corto.",
      none, false, none⟩, db1, rl2, true⟩
  | .networkError msg =>
    ⟨⟨500, some (outerCatchMessage msg), none, false, none⟩, db1, rl2, true⟩
  | .httpError status =>
    ⟨⟨status, some (geminiErrorMessage status), none, false, none⟩, db1, rl2, true⟩
  | .ok body =>
    if env.updateOk then
      ⟨⟨200, some (botReplyOf body), some v.sessionId, true, none⟩,
        (match db1 v.sessionId with
         | some c =>
           mapSet db1 v.sessionId
             { c with history := updatedHistory ++ [modelTurnOf body],
                      updatedAt := env.now }
         | none => db1),
        rl2, true⟩
    else
      ⟨⟨500, some (outerCatchMessage env.updateErrMsg), none, false, none⟩,
        db1, rl2, true⟩

/-- The POST handler (route.ts lines 301-637): rate limiting, body
processing, the empty-input check, then postCore. -/
def POST (req : Request) (env : Env) : PostResult :=
  let rlStep := RateLimiter.isAllowed env.rl (getClientIP req) env.now
  if rlStep.2.allowed = false then
    ⟨⟨429, some "⏰ Has superado el límite de mensajes por hora. Intenta más tarde.",
      none, false, rlStep.2.resetTime⟩, env.db, rlStep.1, false⟩
  else
    match processBody req.body with
    | .reject status reply =>
      ⟨⟨status, some reply, none, false, none⟩, env.db, rlStep.1, false⟩
    | .accepted v img =>
      if v.message = "" ∧ img = none then
        ⟨⟨400, some "Por favor, envía un mensaje o una imagen.", none, false, none⟩,
          env.db, rlStep.1, false⟩
      else postCore v img env rlStep.1

-- ### The GET handler (route.ts lines 640-698)

/-- The JSON answer of the GET handler. -/
structure GetResponse where
  status : Nat
  error : Option String
  sessionId : Option String
  userInfo : Option UserInfo
  messageCount : Option Nat
  createdAt : Option Nat
  updatedAt : Option Nat
deriving DecidableEq

/-- The GET handler: rate limiting, sessionId extraction and format check,
lookup, and the metadata projection with messageCount the history length. -/
def GET (ip : String) (sessionIdParam : Option String) (env : Env) :
    GetResponse × RLState :=
  let rlStep := RateLimiter.isAllowed env.rl ip env.now
  if rlStep.2.allowed = false then
    (⟨429, some "Rate limit exceeded", none, none, none, none, none⟩, rlStep.1)
  else
    match sessionIdParam with
    | none =>
      (⟨400, some "sessionId es requerido", none, none, none, none, none⟩, rlStep.1)
    | some sid =>
      if sid = "" then
        (⟨400, some "sessionId es requerido", none, none, none, none, none⟩, rlStep.1)
      else if !(sid.length ≥ 1 && sid.data.all isSessionIdChar) || sid.length > 100 then
        (⟨400, some "sessionId inválido", none, none, none, none, none⟩, rlStep.1)
      else
        match env.db sid with
        | none =>
          (⟨404, some "Conversación no encontrada", none, none, none, none, none⟩,
            rlStep.1)
        | some conv =>
          (⟨200, none, some conv.sessionId, some conv.userInfo,
            some conv.history.length, some conv.createdAt, some conv.updatedAt⟩,
            rlStep.1)

-- ### The earlier route revision (src/unnamed/part_001, lines 39-153)

/-- The conversation document of the earlier revision: no userInfo, no
timestamps. -/
structure ConversationV1 where
  sessionId : String
  history : List Turn
deriving DecidableEq

/-- Collection state for the earlier revision. -/
def DbStateV1 := String → Option ConversationV1

/-- Environment of the earlier revision handler: collection state, Gemini
outcome, and whether the guarded updateOne succeeds. -/
structure EnvV1 where
  db : DbStateV1
  gemini : GeminiOutcome
  updateOk : Bool

/-- Result of the earlier revision handler (its success response carries the
default 200 status). -/
structure PostV1Result where
  status : Nat
  reply : String
  db : DbStateV1

/-- The system prompt of the earlier revision (part_001 line 83). -/
def systemPromptV1 (name age weight height : String) : String :=
  "Eres un nutricionista experto llamado \x27Dr. NutriBot\x27. No repitas siempre lo mismo, tus respuestas siempre deben estar enfocadas en brindar consejos sobre nutrición, alimentos, beneficios de las comidas, calorías, proteínas, vitaminas y cómo impactan en la salud.\n\nDatos del cliente:\n- Nombre: " ++
  name ++ "\n- Edad: " ++ age ++ " años\n- Peso: " ++ weight ++
  " kg\n- Estatura: " ++ height ++
  " cm\n\nSolo brinda información detallada si es necesaria o si el cliente lo solicita, no envies demasiado texto.\nRecuerda mantener el enfoque nutricional incluso si las preguntas cambian de tema."

/-- The reply extraction of the earlier revision (part_001 lines 124-126):
the optional chain with a falsy fallback. -/
def replyV1Of (b : GeminiBody) : String :=
  match extractBotReply b with
  | none => "Sin respuesta clara."
  | some t => if t = "" then "Sin respuesta clara." else t

/-- The POST handler of the earlier revision, modelled from after body
parsing (part_001 lines 39-153): no validation; deleteOne then insertOne of
a fresh document holding only the system turn; the user turn is pushed on
the in-memory copy only; any fetch failure is answered 200 with a generic
text by the outer catch; the updateOne persisting the user and model turns
is wrapped in its own try/catch, so its failure leaves the 200 reply
response intact. -/
def POSTv1 (message name age weight height : String)
    (sessionIdField : Option String) (image : Option (String × String))
    (env : EnvV1) : PostV1Result :=
  let sid := match sessionIdField with
    | some s => if s = "" then "default" else s
    | none => "default"
  let db0 : DbStateV1 := fun k => if k = sid then none else env.db k
  let baseHist : List Turn :=
    [⟨"user", [MsgPart.text (systemPromptV1 name age weight height)]⟩]
  let db1 : DbStateV1 := fun k => if k = sid then some ⟨sid, baseHist⟩ else db0 k
  let parts : List MsgPart :=
    [MsgPart.text ("Consulta: " ++ message)] ++
    (match image with
     | some (m, d) => [MsgPart.inlineData m d]
     | none => [])
  let memHistory := baseHist ++ [⟨"user", parts⟩]
  match env.gemini with
  | .ok body =>
    let reply := replyV1Of body
    let finalHist := memHistory ++ [⟨"model", [MsgPart.text reply]⟩]
    let db2 : DbStateV1 :=
      if env.updateOk then
        fun k => if k = sid then some ⟨sid, finalHist⟩ else db1 k
      else db1
    ⟨200, reply, db2⟩
  | _ => ⟨200, "Error al procesar la solicitud con NutriBot.", db1⟩

-- ### Concrete fixtures used by closed counterexamples and witnesses

/-- A well-formed raw body: every field valid. -/
def rawA : RawFields :=
  ⟨some "hola", some "Ana", some "30", some "70", some "175", some "s1"⟩

/-- A JSON request carrying rawA. -/
def reqA : Request := ⟨none, none, none, .json rawA⟩

/-- The validated form of rawA. -/
def vA : ValidatedRequest := ⟨"hola", "s1", "Ana", 30, 70, 175⟩

/-- rawA with a non-numeric age string. -/
def rawC8 : RawFields :=
  ⟨some "hola", some "Ana", some "abc", some "70", some "175", some "s1"⟩

/-- A JSON request carrying rawC8. -/
def reqC8 : Request := ⟨none, none, none, .json rawC8⟩

/-- A Gemini body with one text candidate. -/
def bodyA : GeminiBody := ⟨[⟨some ⟨[⟨some "Hola"⟩]⟩⟩]⟩

/-- The stored conversation for session s1. -/
def convA : Conversation :=
  ⟨"s1", ⟨"Ana", 30, 70, 175⟩, [systemTurn ⟨"Ana", 30, 70, 175⟩], 0, 0⟩

/-- A collection holding only convA. -/
def dbWithA : DbState := fun k => if k = "s1" then some convA else none

/-- Environment where the Gemini call aborts on the timeout, collection
empty. -/
def envTimeout : Env := ⟨0, fun _ => none, fun _ => none, .aborted, true, ""⟩

/-- Environment where everything succeeds, collection empty. -/
def envOkNew : Env := ⟨0, fun _ => none, fun _ => none, .ok bodyA, true, ""⟩

/-- Environment where everything succeeds, session s1 existing. -/
def envOkExisting : Env := ⟨0, fun _ => none, dbWithA, .ok bodyA, true, ""⟩

/-- Environment for the GET that follows the successful POST on s1. -/
def envAfterPost : Env :=
  ⟨0, fun _ => none, (POST reqA envOkExisting).db, .ok bodyA, true, ""⟩

/-- Environment where the Gemini call succeeds but the final updateOne
throws. -/
def envSaveFail : Env := ⟨0, fun _ => none, dbWithA, .ok bodyA, false, "MongoDB timeout"⟩

/-- A gif image upload of 100 bytes. -/
def imgBad : ImageFile := ⟨"image/gif", 100, "zzz"⟩

/-- A multipart request with valid fields and the gif image. -/
def reqImgBad : Request := ⟨none, none, none, .multipart rawA (some imgBad)⟩

-- ### Theorems

theorem runIsAllowed_length (st : RLState) (id : String) (ts : List Nat) :
    (runIsAllowed st id ts).2.length = ts.length := by
  induction ts generalizing st with
  | nil => simp [runIsAllowed]
  | cons t ts ih => simp [runIsAllowed, ih]

theorem runIsAllowed_append (st : RLState) (id : String) (as bs : List Nat) :
    runIsAllowed st id (as ++ bs) =
      ((runIsAllowed (runIsAllowed st id as).1 id bs).1,
        (runIsAllowed st id as).2 ++ (runIsAllowed (runIsAllowed st id as).1 id bs).2) := by
  induction as generalizing st with
  | nil => simp [runIsAllowed]
  | cons a as ih => simp [runIsAllowed, ih]

/-- Inside an unexpired window: starting from a record with count c, a run of
calls all at times within the window and keeping the total at most the
ceiling is fully admitted and ends with the count increased by the number of
calls. -/
theorem runIsAllowed_window (id : String) (R : Nat) :
    ∀ (ts : List Nat) (st : RLState) (c : Nat),
      st id = some ⟨c, R⟩ → (∀ t ∈ ts, t ≤ R) →
      c + ts.length ≤ RateLimiter.MAX_REQUESTS →
      (∀ res ∈ (runIsAllowed st id ts).2, res.allowed = true) ∧
        (runIsAllowed st id ts).1 id = some ⟨c + ts.length, R⟩ := by
  intro ts
  induction ts with
  | nil =>
    intro st c hst _ _
    simpa [runIsAllowed] using hst
  | cons t ts ih =>
    intro st c hst hin hle
    have ht : t ≤ R := hin t (List.mem_cons_self t ts)
    have hc : ¬ c ≥ RateLimiter.MAX_REQUESTS := by
      simp only [List.length_cons] at hle
      omega
    have hstep : RateLimiter.isAllowed st id t =
        (mapSet st id ⟨c + 1, R⟩, ⟨true, none⟩) := by
      unfold RateLimiter.isAllowed
      rw [hst]
      have : ¬ t > R := by omega
      simp [this, hc]
    have hst2 : mapSet st id ⟨c + 1, R⟩ id = some ⟨c + 1, R⟩ := by
      simp [mapSet]
    have hin2 : ∀ x ∈ ts, x ≤ R := fun x hx => hin x (List.mem_cons_of_mem t hx)
    have hle2 : c + 1 + ts.length ≤ RateLimiter.MAX_REQUESTS := by
      simp only [List.length_cons] at hle
      omega
    obtain ⟨hall, hfin⟩ := ih (mapSet st id ⟨c + 1, R⟩) (c + 1) hst2 hin2 hle2
    constructor
    · intro res hres
      simp only [runIsAllowed, hstep] at hres
      rcases List.mem_cons.mp hres with h | h
      · rw [h]
      · exact hall res h
    · simp only [runIsAllowed, hstep]
      have heq : c + (t :: ts).length = c + 1 + ts.length := by
        simp only [List.length_cons]
        omega
      rw [heq]
      exact hfin

/-- C3: starting fresh (no record, or an expired one), among 51 calls for the
same identifier whose times all fall inside the window opened by the first
call, the first 50 are admitted and the 51st is denied and reports the reset
time of the window, which is at or after the time of that 51st call. -/
theorem rateLimiter_fifty_window
    (st0 : RLState) (id : String) (t0 : Nat) (mid : List Nat) (tl : Nat)
    (hfresh : st0 id = none ∨ ∃ r, st0 id = some r ∧ t0 > r.resetTime)
    (hmid : mid.length = 49)
    (hw1 : ∀ t ∈ mid, t ≤ t0 + RateLimiter.WINDOW_MS)
    (hw2 : tl ≤ t0 + RateLimiter.WINDOW_MS) :
    (runIsAllowed st0 id (t0 :: (mid ++ [tl]))).2.length = 51 ∧
    (∀ res ∈ (runIsAllowed st0 id (t0 :: (mid ++ [tl]))).2.dropLast,
        res.allowed = true) ∧
    (runIsAllowed st0 id (t0 :: (mid ++ [tl]))).2.getLast? =
        some ⟨false, some (t0 + RateLimiter.WINDOW_MS)⟩ ∧
    tl ≤ t0 + RateLimiter.WINDOW_MS := by
  set R := t0 + RateLimiter.WINDOW_MS with hR
  have hstep0 : RateLimiter.isAllowed st0 id t0 =
      (mapSet st0 id ⟨1, R⟩, ⟨true, none⟩) := by
    unfold RateLimiter.isAllowed
    rcases hfresh with h | ⟨r, hr, hexp⟩
    · rw [h]
    · rw [hr]
      simp [hexp, hR]
  have hst1 : mapSet st0 id ⟨1, R⟩ id = some ⟨1, R⟩ := by simp [mapSet]
  have hmidrun := runIsAllowed_window id R mid (mapSet st0 id ⟨1, R⟩) 1 hst1
    hw1 (by simp [hmid, RateLimiter.MAX_REQUESTS])
  obtain ⟨hallmid, hstmid⟩ := hmidrun
  have hstmid50 : (runIsAllowed (mapSet st0 id ⟨1, R⟩) id mid).1 id =
      some ⟨50, R⟩ := by
    rw [hstmid, hmid]
  have hlast : RateLimiter.isAllowed
      (runIsAllowed (mapSet st0 id ⟨1, R⟩) id mid).1 id tl =
      ((runIsAllowed (mapSet st0 id ⟨1, R⟩) id mid).1, ⟨false, some R⟩) := by
    unfold RateLimiter.isAllowed
    rw [hstmid50]
    have h1 : ¬ tl > R := by omega
    have h2 : (50 : Nat) ≥ RateLimiter.MAX_REQUESTS := by
      simp [RateLimiter.MAX_REQUESTS]
    simp [h1, h2]
  have hrun : runIsAllowed st0 id (t0 :: (mid ++ [tl])) =
      ((runIsAllowed (mapSet st0 id ⟨1, R⟩) id mid).1,
        RLResult.mk true none ::
          ((runIsAllowed (mapSet st0 id ⟨1, R⟩) id mid).2 ++
            [⟨false, some R⟩])) := by
    simp only [runIsAllowed, hstep0]
    rw [runIsAllowed_append]
    simp [runIsAllowed, hlast]
  refine ⟨?_, ?_, ?_, hw2⟩
  · rw [hrun]
    simp only [List.length_cons, List.length_append, List.length_singleton,
      List.length_nil, runIsAllowed_length, hmid]
  · rw [hrun]
    intro res hres
    rw [show RLResult.mk true none ::
          ((runIsAllowed (mapSet st0 id ⟨1, R⟩) id mid).2 ++ [⟨false, some R⟩]) =
        (RLResult.mk true none ::
          (runIsAllowed (mapSet st0 id ⟨1, R⟩) id mid).2) ++ [⟨false, some R⟩]
      from by simp] at hres
    rw [List.dropLast_concat] at hres
    rcases List.mem_cons.mp hres with h | h
    · rw [h]
    · exact hallmid res h
  · rw [hrun]
    rw [show RLResult.mk true none ::
          ((runIsAllowed (mapSet st0 id ⟨1, R⟩) id mid).2 ++ [⟨false, some R⟩]) =
        (RLResult.mk true none ::
          (runIsAllowed (mapSet st0 id ⟨1, R⟩) id mid).2) ++ [⟨false, some R⟩]
      from by simp]
    rw [List.getLast?_concat]

/-- Witness for C3 at a concrete run: identifier "c", all 51 calls at time 0
from the empty map. -/
theorem rateLimiter_fifty_window_witness :
    (runIsAllowed (fun _ => none) "c"
        (0 :: (List.replicate 49 0 ++ [0]))).2.length = 51 ∧
    (∀ res ∈ (runIsAllowed (fun _ => none) "c"
        (0 :: (List.replicate 49 0 ++ [0]))).2.dropLast, res.allowed = true) ∧
    (runIsAllowed (fun _ => none) "c"
        (0 :: (List.replicate 49 0 ++ [0]))).2.getLast? =
      some ⟨false, some (0 + RateLimiter.WINDOW_MS)⟩ ∧
    0 ≤ 0 + RateLimiter.WINDOW_MS :=
  rateLimiter_fifty_window (fun _ => none) "c" 0 (List.replicate 49 0) 0
    (Or.inl rfl) (by simp) (by simp) (Nat.zero_le _)

/-- C10: the requests-map count never exceeds MAX_REQUESTS: the bound is
preserved by every isAllowed call, a denied call leaves the map unchanged,
and a call arriving after the window expired restarts the record at
count 1. -/
theorem rateLimiter_count_invariant (st : RLState) (id : String) (now : Nat)
    (hinv : ∀ k r, st k = some r → r.count ≤ RateLimiter.MAX_REQUESTS) :
    (∀ k r, (RateLimiter.isAllowed st id now).1 k = some r →
        r.count ≤ RateLimiter.MAX_REQUESTS) ∧
    ((RateLimiter.isAllowed st id now).2.allowed = false →
        (RateLimiter.isAllowed st id now).1 = st) ∧
    (∀ r, st id = some r → now > r.resetTime →
        (RateLimiter.isAllowed st id now).1 id =
          some ⟨1, now + RateLimiter.WINDOW_MS⟩) := by
  have hbound : ∀ (v : RLRecord),
      v.count ≤ RateLimiter.MAX_REQUESTS →
      ∀ k r, mapSet st id v k = some r → r.count ≤ RateLimiter.MAX_REQUESTS := by
    intro v hv k r hk
    simp only [mapSet] at hk
    by_cases hkk : k = id
    · rw [if_pos hkk] at hk
      injection hk with h
      rw [← h]
      exact hv
    · rw [if_neg hkk] at hk
      exact hinv k r hk
  rcases hst : st id with _ | record
  · have hred : RateLimiter.isAllowed st id now =
        (mapSet st id ⟨1, now + RateLimiter.WINDOW_MS⟩, ⟨true, none⟩) := by
      simp only [RateLimiter.isAllowed, hst]
    rw [hred]
    refine ⟨hbound _ (by simp [RateLimiter.MAX_REQUESTS]), ?_, ?_⟩
    · intro h
      simp at h
    · intro r hr
      exact Option.noConfusion hr
  · by_cases hexp : now > record.resetTime
    · have hred : RateLimiter.isAllowed st id now =
          (mapSet st id ⟨1, now + RateLimiter.WINDOW_MS⟩, ⟨true, none⟩) := by
        simp only [RateLimiter.isAllowed, hst]
        rw [if_pos hexp]
      rw [hred]
      refine ⟨hbound _ (by simp [RateLimiter.MAX_REQUESTS]), ?_, ?_⟩
      · intro h
        simp at h
      · intro r _ _
        simp [mapSet]
    · by_cases hmax : record.count ≥ RateLimiter.MAX_REQUESTS
      · have hred : RateLimiter.isAllowed st id now =
            (st, ⟨false, some record.resetTime⟩) := by
          simp only [RateLimiter.isAllowed, hst]
          rw [if_neg hexp, if_pos hmax]
        rw [hred]
        refine ⟨fun k r hk => hinv k r hk, fun _ => rfl, ?_⟩
        intro r hr hexp2
        injection hr with h
        rw [← h] at hexp2
        exact absurd hexp2 hexp
      · have hred : RateLimiter.isAllowed st id now =
            (mapSet st id ⟨record.count + 1, record.resetTime⟩, ⟨true, none⟩) := by
          simp only [RateLimiter.isAllowed, hst]
          rw [if_neg hexp, if_neg hmax]
        rw [hred]
        have hc1 : (RLRecord.mk (record.count + 1) record.resetTime).count ≤
            RateLimiter.MAX_REQUESTS := by
          show record.count + 1 ≤ RateLimiter.MAX_REQUESTS
          simp only [RateLimiter.MAX_REQUESTS] at hmax ⊢
          omega
        refine ⟨hbound _ hc1, ?_, ?_⟩
        · intro h
          simp at h
        · intro r hr hexp2
          injection hr with h
          rw [← h] at hexp2
          exact absurd hexp2 hexp

/-- C4: over the validated input ranges the category is a function of
bmi = weight / (height in metres) squared alone, lands in exactly one of the
four fixed categories, and the cutoffs are boundary inclusive at 18.5, 25
and 30. -/
theorem nutritional_context_categories (a w h : ℚ)
    (hw1 : 20 ≤ w) (hw2 : w ≤ 300) (hh1 : 100 ≤ h) (hh2 : h ≤ 250) :
    ((generateNutritionalContext a w h).imcCategory = "Bajo peso" ↔
        w / ((h / 100) * (h / 100)) < 18.5) ∧
    ((generateNutritionalContext a w h).imcCategory = "Peso normal" ↔
        (18.5 ≤ w / ((h / 100) * (h / 100)) ∧ w / ((h / 100) * (h / 100)) < 25)) ∧
    ((generateNutritionalContext a w h).imcCategory = "Sobrepeso" ↔
        (25 ≤ w / ((h / 100) * (h / 100)) ∧ w / ((h / 100) * (h / 100)) < 30)) ∧
    ((generateNutritionalContext a w h).imcCategory = "Obesidad" ↔
        30 ≤ w / ((h / 100) * (h / 100))) ∧
    (generateNutritionalContext a w h).imcCategory ∈
      ["Bajo peso", "Peso normal", "Sobrepeso", "Obesidad"] := by
  unfold generateNutritionalContext
  set imc := w / ((h / 100) * (h / 100)) with himc
  by_cases h1 : imc < 18.5
  · rw [if_pos h1]
    refine ⟨by simpa using h1, ?_, ?_, ?_, by simp⟩
    · constructor
      · intro hc
        simp at hc
      · intro hc
        exact absurd h1 (not_lt.mpr hc.1)
    · constructor
      · intro hc
        simp at hc
      · intro hc
        exact absurd h1 (not_lt.mpr (le_trans (by norm_num) hc.1))
    · constructor
      · intro hc
        simp at hc
      · intro hc
        exact absurd h1 (not_lt.mpr (le_trans (by norm_num) hc))
  · rw [if_neg h1]
    push_neg at h1
    by_cases h2 : 18.5 ≤ imc ∧ imc < 25
    · rw [if_pos h2]
      refine ⟨?_, by simp [h2], ?_, ?_, by simp⟩
      · constructor
        · intro hc
          simp at hc
        · intro hc
          exact absurd hc (not_lt.mpr h2.1)
      · constructor
        · intro hc
          simp at hc
        · intro hc
          exact absurd h2.2 (not_lt.mpr hc.1)
      · constructor
        · intro hc
          simp at hc
        · intro hc
          exact absurd h2.2 (not_lt.mpr (le_trans (by norm_num) hc))
    · rw [if_neg h2]
      push_neg at h2
      have h25 : 25 ≤ imc := h2 h1
      by_cases h3 : 25 ≤ imc ∧ imc < 30
      · rw [if_pos h3]
        refine ⟨?_, ?_, by simp [h3], ?_, by simp⟩
        · constructor
          · intro hc
            simp at hc
          · intro hc
            exact absurd hc (not_lt.mpr h1)
        · constructor
          · intro hc
            simp at hc
          · intro hc
            exact absurd hc.2 (not_lt.mpr h25)
        · constructor
          · intro hc
            simp at hc
          · intro hc
            exact absurd h3.2 (not_lt.mpr hc)
      · rw [if_neg h3]
        push_neg at h3
        have h30 : 30 ≤ imc := h3 h25
        refine ⟨?_, ?_, ?_, by simp [h30], by simp⟩
        · constructor
          · intro hc
            simp at hc
          · intro hc
            exact absurd hc (not_lt.mpr h1)
        · constructor
          · intro hc
            simp at hc
          · intro hc
            exact absurd hc.2 (not_lt.mpr (le_trans (by norm_num) h30))
        · constructor
          · intro hc
            simp at hc
          · intro hc
            exact absurd hc.2 (not_lt.mpr h30)

/-- Witness for C4 at weight 70, height 175 (bmi 22.857..., normal). -/
theorem nutritional_context_categories_witness :
    ((generateNutritionalContext 30 70 175).imcCategory = "Bajo peso" ↔
        (70 : ℚ) / ((175 / 100) * (175 / 100)) < 18.5) ∧
    ((generateNutritionalContext 30 70 175).imcCategory = "Peso normal" ↔
        ((18.5 : ℚ) ≤ 70 / ((175 / 100) * (175 / 100)) ∧
          (70 : ℚ) / ((175 / 100) * (175 / 100)) < 25)) ∧
    ((generateNutritionalContext 30 70 175).imcCategory = "Sobrepeso" ↔
        ((25 : ℚ) ≤ 70 / ((175 / 100) * (175 / 100)) ∧
          (70 : ℚ) / ((175 / 100) * (175 / 100)) < 30)) ∧
    ((generateNutritionalContext 30 70 175).imcCategory = "Obesidad" ↔
        (30 : ℚ) ≤ 70 / ((175 / 100) * (175 / 100))) ∧
    (generateNutritionalContext 30 70 175).imcCategory ∈
      ["Bajo peso", "Peso normal", "Sobrepeso", "Obesidad"] :=
  nutritional_context_categories 30 70 175 (by norm_num) (by norm_num)
    (by norm_num) (by norm_num)

/-- Witness for C10 on the empty map. -/
theorem rateLimiter_count_invariant_witness :
    (∀ k r, (RateLimiter.isAllowed (fun _ => none) "a" 0).1 k = some r →
        r.count ≤ RateLimiter.MAX_REQUESTS) ∧
    ((RateLimiter.isAllowed (fun _ => none) "a" 0).2.allowed = false →
        (RateLimiter.isAllowed (fun _ => none) "a" 0).1 = (fun _ => none)) ∧
    (∀ r, (fun _ => none : RLState) "a" = some r → 0 > r.resetTime →
        (RateLimiter.isAllowed (fun _ => none) "a" 0).1 "a" =
          some ⟨1, 0 + RateLimiter.WINDOW_MS⟩) :=
  rateLimiter_count_invariant (fun _ => none) "a" 0
    (fun k r h => by cases h)

theorem strdata_append (a b : String) : (a ++ b).data = a.data ++ b.data := by
  cases a
  cases b
  rfl

/-- Any member of a joined list occurs inside the join. -/
theorem joinSep_contains (sep : String) :
    ∀ (l : List String) (x : String), x ∈ l →
      ∃ a b : List Char, (joinSep sep l).data = a ++ x.data ++ b := by
  intro l
  induction l with
  | nil =>
    intro x hx
    cases hx
  | cons y t ih =>
    intro x hx
    rcases List.mem_cons.mp hx with h | h
    · subst h
      cases t with
      | nil =>
        exact ⟨[], [], by simp [joinSep]⟩
      | cons z t2 =>
        refine ⟨[], (sep ++ joinSep sep (z :: t2)).data, ?_⟩
        show (x ++ sep ++ joinSep sep (z :: t2)).data = [] ++ x.data ++ _
        simp [strdata_append]
    · cases t with
      | nil => cases h
      | cons z t2 =>
        obtain ⟨a, b, hab⟩ := ih x h
        refine ⟨(y ++ sep).data ++ a, b, ?_⟩
        show (y ++ sep ++ joinSep sep (z :: t2)).data = _
        simp [strdata_append, hab]

/-- Every reported field issue appears in the aggregated message under its
field path. -/
theorem formatZodErrors_contains (errs : List (String × String))
    (p m : String) (hmem : (p, m) ∈ errs) :
    containsStr (formatZodErrors errs) (p ++ ": " ++ m) := by
  have hx : (p ++ ": " ++ m) ∈ errs.map (fun e => e.1 ++ ": " ++ e.2) :=
    List.mem_map.mpr ⟨(p, m), hmem, rfl⟩
  obtain ⟨a, b, hab⟩ := joinSep_contains ", " _ _ hx
  refine ⟨("❌ Datos inválidos: ").data ++ a, b, ?_⟩
  unfold formatZodErrors
  rw [strdata_append, hab]
  simp

/-- A prefix of an inner occurrence also occurs. -/
theorem containsStr_of_left (s x y : String)
    (h : containsStr s (x ++ y)) : containsStr s x := by
  obtain ⟨a, b, hab⟩ := h
  exact ⟨a, y.data ++ b, by rw [hab, strdata_append]; simp⟩

/-- If validation leaves at least one issue, parse raises them all. -/
theorem validateAll_error (raw : RawFields) (hne : allFieldErrors raw ≠ []) :
    validateAll raw = .error (allFieldErrors raw) := by
  unfold validateAll
  cases h : allFieldErrors raw with
  | nil => exact absurd h hne
  | cons e es => rfl

/-- A failing age field contributes an age-tagged issue. -/
theorem age_mem_allFieldErrors (raw : RawFields)
    (hage : ageErrors raw.age ≠ []) :
    ∃ m, ("age", m) ∈ allFieldErrors raw := by
  cases h : ageErrors raw.age with
  | nil => exact absurd h hage
  | cons m ms =>
    refine ⟨m, ?_⟩
    unfold allFieldErrors
    have : ("age", m) ∈ (ageErrors raw.age).map (fun m => ("age", m)) := by
      rw [h]
      exact List.mem_cons_self _ _
    simp only [List.mem_append]
    tauto

/-- Reduction of POST when the rate limiter admits and the body is
rejected. -/
theorem POST_reject (req : Request) (env : Env) (status : Nat) (reply : String)
    (hrl : (RateLimiter.isAllowed env.rl (getClientIP req) env.now).2.allowed = true)
    (hbody : processBody req.body = .reject status reply) :
    POST req env =
      ⟨⟨status, some reply, none, false, none⟩, env.db,
        (RateLimiter.isAllowed env.rl (getClientIP req) env.now).1, false⟩ := by
  simp only [POST, hrl, hbody]
  simp

/-- Reduction of POST to postCore when the request is admitted, validated,
and nonempty. -/
theorem POST_eq_postCore (req : Request) (env : Env) (v : ValidatedRequest)
    (img : Option (String × String))
    (hrl : (RateLimiter.isAllowed env.rl (getClientIP req) env.now).2.allowed = true)
    (hbody : processBody req.body = .accepted v img)
    (hmsg : ¬(v.message = "" ∧ img = none)) :
    POST req env = postCore v img env
      (RateLimiter.isAllowed env.rl (getClientIP req) env.now).1 := by
  simp only [POST, hrl, hbody]
  simp [hmsg]

/-- C8: whichever branch parsed the body, a request whose age fails
validation is answered 400 with the single aggregated message in which every
field issue is qualified by its field path, and in particular the message
mentions age. -/
theorem validation_error_field_qualified
    (req : Request) (env : Env) (raw : RawFields)
    (hrl : (RateLimiter.isAllowed env.rl (getClientIP req) env.now).2.allowed = true)
    (hbody : req.body = .json raw ∨ ∃ i, req.body = .multipart raw i)
    (hage : ageErrors raw.age ≠ []) :
    (POST req env).response.status = 400 ∧
    ∃ msg, (POST req env).response.reply = some msg ∧
      (∀ p m, (p, m) ∈ allFieldErrors raw → containsStr msg (p ++ ": " ++ m)) ∧
      containsStr msg "age" := by
  obtain ⟨m0, hm0⟩ := age_mem_allFieldErrors raw hage
  have hne : allFieldErrors raw ≠ [] := List.ne_nil_of_mem hm0
  have hval := validateAll_error raw hne
  have hpb : processBody req.body =
      .reject 400 (formatZodErrors (allFieldErrors raw)) := by
    rcases hbody with h | ⟨i, h⟩
    · rw [h]
      simp only [processBody, hval]
    · rw [h]
      simp only [processBody, hval]
  rw [POST_reject req env 400 _ hrl hpb]
  refine ⟨rfl, formatZodErrors (allFieldErrors raw), rfl, ?_, ?_⟩
  · intro p m hpm
    exact formatZodErrors_contains _ p m hpm
  · have hc := formatZodErrors_contains _ "age" m0 hm0
    have h1 := containsStr_of_left _ ("age" ++ ": ") m0 hc
    exact containsStr_of_left _ "age" ": " h1

/-- Witness for C8: the age string abc is rejected with 400 and the message
mentions age. -/
theorem validation_error_field_qualified_witness :
    (POST reqC8 envTimeout).response.status = 400 ∧
    ∃ msg, (POST reqC8 envTimeout).response.reply = some msg ∧
      (∀ p m, (p, m) ∈ allFieldErrors rawC8 → containsStr msg (p ++ ": " ++ m)) ∧
      containsStr msg "age" :=
  validation_error_field_qualified reqC8 envTimeout rawC8 (by decide)
    (Or.inl rfl) (by decide)

/-- C9: a multipart upload with a nonempty image of a disallowed mime type
or of more than 5MB is answered 400 and the Gemini endpoint is never
reached on that request. -/
theorem image_rejected_before_gemini
    (req : Request) (env : Env) (raw : RawFields) (img : ImageFile)
    (hrl : (RateLimiter.isAllowed env.rl (getClientIP req) env.now).2.allowed = true)
    (hbody : req.body = .multipart raw (some img))
    (hsz : img.size > 0)
    (hbad : allowedImageTypes.contains img.mimeType = false ∨
      img.size > 5 * 1024 * 1024) :
    (POST req env).response.status = 400 ∧ (POST req env).geminiCalled = false := by
  cases hval : validateAll raw with
  | error errs =>
    have hpb : processBody req.body = .reject 400 (formatZodErrors errs) := by
      rw [hbody]
      simp only [processBody, hval]
    rw [POST_reject req env 400 _ hrl hpb]
    exact ⟨rfl, rfl⟩
  | ok v =>
    cases hmime : allowedImageTypes.contains img.mimeType with
    | false =>
      have hpb : processBody req.body =
          .reject 400 "❌ Tipo de imagen no válido. Usa JPG, PNG o WebP." := by
        rw [hbody]
        simp only [processBody, hval]
        have hnm : ¬ img.mimeType ∈ allowedImageTypes := by simpa using hmime
        simp [hsz, hnm]
      rw [POST_reject req env 400 _ hrl hpb]
      exact ⟨rfl, rfl⟩
    | true =>
      have hsize : img.size > 5 * 1024 * 1024 := by
        rcases hbad with h | h
        · rw [hmime] at h
          cases h
        · exact h
      have hpb : processBody req.body =
          .reject 400 "❌ La imagen es demasiado grande. Tamaño máximo: 5MB." := by
        rw [hbody]
        simp only [processBody, hval]
        have hm : img.mimeType ∈ allowedImageTypes := by simpa using hmime
        simp [hsz, hm, hsize]
      rw [POST_reject req env 400 _ hrl hpb]
      exact ⟨rfl, rfl⟩

/-- Witness for C9: a 100-byte gif upload is rejected 400 without a Gemini
call. -/
theorem image_rejected_before_gemini_witness :
    (POST reqImgBad envTimeout).response.status = 400 ∧
    (POST reqImgBad envTimeout).geminiCalled = false :=
  image_rejected_before_gemini reqImgBad envTimeout rawA imgBad (by decide)
    rfl (by decide) (Or.inl (by decide))

theorem db1Of_existing (v : ValidatedRequest) (env : Env) (c : Conversation)
    (hc : env.db v.sessionId = some c) : db1Of v env = env.db := by
  unfold db1Of
  rw [hc]

theorem db1Of_new (v : ValidatedRequest) (env : Env)
    (h : env.db v.sessionId = none) :
    db1Of v env = mapSet env.db v.sessionId (newConversation v env.now) := by
  unfold db1Of
  rw [h]

theorem convOf_existing (v : ValidatedRequest) (env : Env) (c : Conversation)
    (hc : env.db v.sessionId = some c) : convOf v env = c := by
  unfold convOf
  rw [hc]

theorem convOf_new (v : ValidatedRequest) (env : Env)
    (h : env.db v.sessionId = none) : convOf v env = newConversation v env.now := by
  unfold convOf
  rw [h]

/-- On any failed Gemini call, postCore leaves the collection at its
post-resolution state db1Of and reports that the endpoint was reached. -/
theorem postCore_fail_db (v : ValidatedRequest) (img : Option (String × String))
    (env : Env) (rl2 : RLState)
    (hfail : env.gemini = .aborted ∨ (∃ s, env.gemini = .httpError s) ∨
      (∃ m, env.gemini = .networkError m)) :
    (postCore v img env rl2).db = db1Of v env ∧
    (postCore v img env rl2).geminiCalled = true := by
  rcases hfail with h | ⟨s, h⟩ | ⟨m, h⟩ <;>
    (unfold postCore; rw [h]; exact ⟨rfl, rfl⟩)

/-- Reduction of postCore on an aborted Gemini call. -/
theorem postCore_aborted_resp (v : ValidatedRequest)
    (img : Option (String × String)) (env : Env) (rl2 : RLState)
    (hg : env.gemini = .aborted) :
    (postCore v img env rl2).response.status = 408 := by
  unfold postCore
  rw [hg]

/-- Reduction of postCore on success with a successful save. -/
theorem postCore_ok_save (v : ValidatedRequest) (img : Option (String × String))
    (env : Env) (rl2 : RLState) (body : GeminiBody)
    (hg : env.gemini = .ok body) (hup : env.updateOk = true) :
    postCore v img env rl2 =
      ⟨⟨200, some (botReplyOf body), some v.sessionId, true, none⟩,
        (match db1Of v env v.sessionId with
         | some c =>
           mapSet (db1Of v env) v.sessionId
             { c with
                history := (convOf v env).history ++ [userTurnOf v img] ++ [modelTurnOf body]
                updatedAt := env.now }
         | none => db1Of v env),
        rl2, true⟩ := by
  unfold postCore
  rw [hg, hup]
  rfl

/-- Reduction of postCore on success with a failing save. -/
theorem postCore_ok_nosave (v : ValidatedRequest)
    (img : Option (String × String)) (env : Env) (rl2 : RLState)
    (body : GeminiBody)
    (hg : env.gemini = .ok body) (hup : env.updateOk = false) :
    postCore v img env rl2 =
      ⟨⟨500, some (outerCatchMessage env.updateErrMsg), none, false, none⟩,
        db1Of v env, rl2, true⟩ := by
  unfold postCore
  rw [hg, hup]
  rfl

/-- Reduction of GET when admitted, the sessionId well formed, and the
conversation found: the metadata projection reports the history length. -/
theorem GET_found (ip sid : String) (env : Env) (conv : Conversation)
    (hrl : (RateLimiter.isAllowed env.rl ip env.now).2.allowed = true)
    (hne : sid ≠ "")
    (hfmt : (sid.length ≥ 1 && sid.data.all isSessionIdChar) = true)
    (hlen : sid.length ≤ 100)
    (hdb : env.db sid = some conv) :
    (GET ip (some sid) env).1.messageCount = some conv.history.length := by
  have h100 : decide (sid.length > 100) = false :=
    decide_eq_false (Nat.not_lt.mpr hlen)
  simp only [GET, hrl, hdb]
  rw [if_neg (by simp)]
  rw [if_neg hne]
  rw [if_neg (by rw [hfmt, h100]; simp)]

/-- C1 (amended): when the Gemini call aborts, times out at the upstream, or
errors, a POST on an existing session persists nothing; but a POST on a new
sessionId has already inserted the new conversation document holding the
synthesized system turn before the call, and that insert remains.  No user
or model turn is ever persisted before the call succeeds. -/
theorem post_failure_persistence
    (req : Request) (env : Env) (v : ValidatedRequest)
    (img : Option (String × String))
    (hrl : (RateLimiter.isAllowed env.rl (getClientIP req) env.now).2.allowed = true)
    (hbody : processBody req.body = .accepted v img)
    (hmsg : ¬(v.message = "" ∧ img = none))
    (hfail : env.gemini = .aborted ∨ (∃ s, env.gemini = .httpError s) ∨
      (∃ m, env.gemini = .networkError m)) :
    (∀ c, env.db v.sessionId = some c → (POST req env).db = env.db) ∧
    (env.db v.sessionId = none →
      (POST req env).db v.sessionId = some (newConversation v env.now) ∧
      (newConversation v env.now).history = [systemTurn (userInfoOf v)] ∧
      ∀ k, k ≠ v.sessionId → (POST req env).db k = env.db k) ∧
    (env.gemini = .aborted → (POST req env).response.status = 408) := by
  rw [POST_eq_postCore req env v img hrl hbody hmsg]
  have hdb := postCore_fail_db v img env
    (RateLimiter.isAllowed env.rl (getClientIP req) env.now).1 hfail
  refine ⟨?_, ?_, ?_⟩
  · intro c hc
    rw [hdb.1, db1Of_existing v env c hc]
  · intro hnone
    rw [hdb.1, db1Of_new v env hnone]
    refine ⟨by simp [mapSet], rfl, fun k hk => by simp [mapSet, hk]⟩
  · intro hab
    exact postCore_aborted_resp v img env _ hab

/-- Counterexample to C1 as stated: a valid first message on the brand-new
session s1 with the external call timing out is answered 408, yet a new
conversation document for s1 has been persisted by that request. -/
theorem new_session_persisted_on_timeout_cex :
    (POST reqA envTimeout).response.status = 408 ∧
    envTimeout.db "s1" = none ∧
    ((POST reqA envTimeout).db "s1").isSome = true :=
  ⟨by decide, rfl, by decide⟩

/-- Witness for the amended C1 at the concrete timed-out first request. -/
theorem post_failure_persistence_witness :
    (∀ c, envTimeout.db vA.sessionId = some c →
        (POST reqA envTimeout).db = envTimeout.db) ∧
    (envTimeout.db vA.sessionId = none →
      (POST reqA envTimeout).db vA.sessionId =
        some (newConversation vA envTimeout.now) ∧
      (newConversation vA envTimeout.now).history = [systemTurn (userInfoOf vA)] ∧
      ∀ k, k ≠ vA.sessionId → (POST reqA envTimeout).db k = envTimeout.db k) ∧
    (envTimeout.gemini = .aborted → (POST reqA envTimeout).response.status = 408) :=
  post_failure_persistence reqA envTimeout vA none (by decide) (by decide)
    (by decide) (Or.inl rfl)

/-- C2 (amended): in the live revision a failing final save propagates to
the generic error handler: the request is answered 500 with the mapped
error text and the model turn is not persisted, so the generated reply is
not delivered with a 200.  Only in the earlier revision (part_001) is the
save failure caught and logged, with the request still answering 200 and
carrying the generated reply. -/
theorem save_failure_behavior
    (req : Request) (env : Env) (v : ValidatedRequest)
    (img : Option (String × String)) (c : Conversation) (body : GeminiBody)
    (hrl : (RateLimiter.isAllowed env.rl (getClientIP req) env.now).2.allowed = true)
    (hbody : processBody req.body = .accepted v img)
    (hmsg : ¬(v.message = "" ∧ img = none))
    (hex : env.db v.sessionId = some c)
    (hg : env.gemini = .ok body) (hup : env.updateOk = false) :
    ((POST req env).response.status = 500 ∧
     (POST req env).response.reply = some (outerCatchMessage env.updateErrMsg) ∧
     (POST req env).db = env.db) ∧
    (∀ (m n a w h : String) (sidOpt : Option String)
        (imgv : Option (String × String)) (envV1 : EnvV1),
      envV1.gemini = .ok body → envV1.updateOk = false →
      (POSTv1 m n a w h sidOpt imgv envV1).status = 200 ∧
      (POSTv1 m n a w h sidOpt imgv envV1).reply = replyV1Of body) := by
  constructor
  · rw [POST_eq_postCore req env v img hrl hbody hmsg,
      postCore_ok_nosave v img env _ body hg hup]
    exact ⟨rfl, rfl, db1Of_existing v env c hex⟩
  · intro m n a w h sidOpt imgv envV1 hg1 _
    constructor
    · unfold POSTv1
      rw [hg1]
    · unfold POSTv1
      rw [hg1]

/-- Counterexample to C2 as stated: with the Gemini call succeeding and the
final save failing on the existing session s1, the live revision answers
500 with the database error text, not 200 with the generated reply. -/
theorem save_failure_returns_500_cex :
    (POST reqA envSaveFail).response.status = 500 ∧
    (POST reqA envSaveFail).response.status ≠ 200 ∧
    (POST reqA envSaveFail).response.reply =
      some "💾 Error de base de datos. Intenta nuevamente en unos momentos." :=
  ⟨by decide, by decide, by decide⟩

/-- Witness for the amended C2 at the concrete failing save. -/
theorem save_failure_behavior_witness :
    ((POST reqA envSaveFail).response.status = 500 ∧
     (POST reqA envSaveFail).response.reply =
       some (outerCatchMessage envSaveFail.updateErrMsg) ∧
     (POST reqA envSaveFail).db = envSaveFail.db) ∧
    (∀ (m n a w h : String) (sidOpt : Option String)
        (imgv : Option (String × String)) (envV1 : EnvV1),
      envV1.gemini = .ok bodyA → envV1.updateOk = false →
      (POSTv1 m n a w h sidOpt imgv envV1).status = 200 ∧
      (POSTv1 m n a w h sidOpt imgv envV1).reply = replyV1Of bodyA) :=
  save_failure_behavior reqA envSaveFail vA none convA bodyA (by decide)
    (by decide) (by decide) rfl rfl rfl

/-- C5: a POST creating a brand-new session inserts exactly one new
conversation document, whose first history entry is the synthesized system
turn, and the 200 response is built solely from the Gemini body (reply,
sessionId, timestamp), so the system turn text is never echoed by the
server. -/
theorem new_session_single_insert
    (req : Request) (env : Env) (v : ValidatedRequest)
    (img : Option (String × String)) (body : GeminiBody)
    (hrl : (RateLimiter.isAllowed env.rl (getClientIP req) env.now).2.allowed = true)
    (hbody : processBody req.body = .accepted v img)
    (hmsg : ¬(v.message = "" ∧ img = none))
    (hg : env.gemini = .ok body) (hup : env.updateOk = true)
    (hnew : env.db v.sessionId = none) :
    (∀ k, k ≠ v.sessionId → (POST req env).db k = env.db k) ∧
    (∃ c2, (POST req env).db v.sessionId = some c2 ∧
      c2.history.head? = some (systemTurn (userInfoOf v))) ∧
    (POST req env).response =
      ⟨200, some (botReplyOf body), some v.sessionId, true, none⟩ := by
  rw [POST_eq_postCore req env v img hrl hbody hmsg,
    postCore_ok_save v img env _ body hg hup]
  have hdb1 : db1Of v env v.sessionId = some (newConversation v env.now) := by
    rw [db1Of_new v env hnew]
    simp [mapSet]
  rw [hdb1]
  refine ⟨?_, ?_, rfl⟩
  · intro k hk
    show mapSet (db1Of v env) v.sessionId _ k = env.db k
    rw [db1Of_new v env hnew]
    simp [mapSet, hk]
  · refine ⟨{ newConversation v env.now with
        history := (convOf v env).history ++ [userTurnOf v img] ++ [modelTurnOf body]
        updatedAt := env.now }, ?_, ?_⟩
    · simp [mapSet]
    · rw [convOf_new v env hnew]
      simp [newConversation, systemTurn]

/-- Witness for C5 at the concrete first message on s1. -/
theorem new_session_single_insert_witness :
    (∀ k, k ≠ vA.sessionId → (POST reqA envOkNew).db k = envOkNew.db k) ∧
    (∃ c2, (POST reqA envOkNew).db vA.sessionId = some c2 ∧
      c2.history.head? = some (systemTurn (userInfoOf vA))) ∧
    (POST reqA envOkNew).response =
      ⟨200, some (botReplyOf bodyA), some vA.sessionId, true, none⟩ :=
  new_session_single_insert reqA envOkNew vA none bodyA (by decide) (by decide)
    (by decide) rfl rfl rfl

/-- C6: a successful POST on an existing session persists exactly the prior
history with the user turn then the model turn appended (no prior turn
rewritten or removed), and a GET on the session before the POST reports the
prior length while a GET afterwards reports that length plus two. -/
theorem post_appends_two_turns
    (req : Request) (env : Env) (v : ValidatedRequest)
    (img : Option (String × String)) (c : Conversation) (body : GeminiBody)
    (hrl : (RateLimiter.isAllowed env.rl (getClientIP req) env.now).2.allowed = true)
    (hbody : processBody req.body = .accepted v img)
    (hmsg : ¬(v.message = "" ∧ img = none))
    (hex : env.db v.sessionId = some c)
    (hg : env.gemini = .ok body) (hup : env.updateOk = true) :
    (POST req env).db v.sessionId =
      some { c with
        history := c.history ++ [userTurnOf v img, modelTurnOf body]
        updatedAt := env.now } ∧
    (∀ (ip1 ip2 : String) (env1 env2 : Env),
      env1.db = env.db → env2.db = (POST req env).db →
      (RateLimiter.isAllowed env1.rl ip1 env1.now).2.allowed = true →
      (RateLimiter.isAllowed env2.rl ip2 env2.now).2.allowed = true →
      v.sessionId ≠ "" →
      (v.sessionId.length ≥ 1 && v.sessionId.data.all isSessionIdChar) = true →
      v.sessionId.length ≤ 100 →
      (GET ip1 (some v.sessionId) env1).1.messageCount = some c.history.length ∧
      (GET ip2 (some v.sessionId) env2).1.messageCount =
        some (c.history.length + 2)) := by
  have hdb1 : db1Of v env v.sessionId = some c := by
    rw [db1Of_existing v env c hex]
    exact hex
  have h1 : (POST req env).db v.sessionId =
      some { c with
        history := c.history ++ [userTurnOf v img, modelTurnOf body]
        updatedAt := env.now } := by
    rw [POST_eq_postCore req env v img hrl hbody hmsg,
      postCore_ok_save v img env _ body hg hup]
    rw [hdb1]
    show mapSet (db1Of v env) v.sessionId _ v.sessionId = _
    rw [convOf_existing v env c hex]
    simp [mapSet, List.append_assoc]
  refine ⟨h1, ?_⟩
  intro ip1 ip2 env1 env2 hdbe1 hdbe2 hrl1 hrl2 hne hfmt hlen
  constructor
  · exact GET_found ip1 v.sessionId env1 c hrl1 hne hfmt hlen
      (by rw [hdbe1]; exact hex)
  · have h2 := GET_found ip2 v.sessionId env2
      { c with
        history := c.history ++ [userTurnOf v img, modelTurnOf body]
        updatedAt := env.now }
      hrl2 hne hfmt hlen (by rw [hdbe2]; exact h1)
    rw [h2]
    simp

/-- Witness for C6 at the concrete POST and GETs on s1. -/
theorem post_appends_two_turns_witness :
    (POST reqA envOkExisting).db vA.sessionId =
      some { convA with
        history := convA.history ++ [userTurnOf vA none, modelTurnOf bodyA]
        updatedAt := envOkExisting.now } ∧
    (∀ (ip1 ip2 : String) (env1 env2 : Env),
      env1.db = envOkExisting.db → env2.db = (POST reqA envOkExisting).db →
      (RateLimiter.isAllowed env1.rl ip1 env1.now).2.allowed = true →
      (RateLimiter.isAllowed env2.rl ip2 env2.now).2.allowed = true →
      vA.sessionId ≠ "" →
      (vA.sessionId.length ≥ 1 && vA.sessionId.data.all isSessionIdChar) = true →
      vA.sessionId.length ≤ 100 →
      (GET ip1 (some vA.sessionId) env1).1.messageCount =
        some convA.history.length ∧
      (GET ip2 (some vA.sessionId) env2).1.messageCount =
        some (convA.history.length + 2)) :=
  post_appends_two_turns reqA envOkExisting vA none convA bodyA (by decide)
    (by decide) (by decide) rfl rfl rfl

/-- C7: on a session whose document already exists, the POST never changes
the stored userInfo (nor sessionId nor createdAt), whatever values were
submitted: the update writes only history and updatedAt. -/
theorem userinfo_unchanged
    (req : Request) (env : Env) (v : ValidatedRequest)
    (img : Option (String × String)) (c : Conversation)
    (hbody : processBody req.body = .accepted v img)
    (hex : env.db v.sessionId = some c) :
    ∃ c2, (POST req env).db v.sessionId = some c2 ∧
      c2.userInfo = c.userInfo ∧ c2.sessionId = c.sessionId ∧
      c2.createdAt = c.createdAt := by
  by_cases hrl : (RateLimiter.isAllowed env.rl (getClientIP req) env.now).2.allowed = true
  · by_cases hmsg : v.message = "" ∧ img = none
    · have hP : (POST req env).db = env.db := by
        simp only [POST, hrl, hbody]
        simp [hmsg]
      exact ⟨c, by rw [hP]; exact hex, rfl, rfl, rfl⟩
    · rw [POST_eq_postCore req env v img hrl hbody hmsg]
      cases hg : env.gemini with
      | aborted =>
        have h := postCore_fail_db v img env
          (RateLimiter.isAllowed env.rl (getClientIP req) env.now).1 (Or.inl hg)
        rw [h.1, db1Of_existing v env c hex]
        exact ⟨c, hex, rfl, rfl, rfl⟩
      | httpError s =>
        have h := postCore_fail_db v img env
          (RateLimiter.isAllowed env.rl (getClientIP req) env.now).1
          (Or.inr (Or.inl ⟨s, hg⟩))
        rw [h.1, db1Of_existing v env c hex]
        exact ⟨c, hex, rfl, rfl, rfl⟩
      | networkError m =>
        have h := postCore_fail_db v img env
          (RateLimiter.isAllowed env.rl (getClientIP req) env.now).1
          (Or.inr (Or.inr ⟨m, hg⟩))
        rw [h.1, db1Of_existing v env c hex]
        exact ⟨c, hex, rfl, rfl, rfl⟩
      | ok body =>
        cases hup : env.updateOk with
        | true =>
          rw [postCore_ok_save v img env _ body hg hup]
          have hdb1 : db1Of v env v.sessionId = some c := by
            rw [db1Of_existing v env c hex]
            exact hex
          rw [hdb1]
          refine ⟨{ c with
              history := (convOf v env).history ++ [userTurnOf v img] ++
                [modelTurnOf body]
              updatedAt := env.now }, ?_, rfl, rfl, rfl⟩
          simp [mapSet]
        | false =>
          rw [postCore_ok_nosave v img env _ body hg hup]
          refine ⟨c, ?_, rfl, rfl, rfl⟩
          show db1Of v env v.sessionId = some c
          rw [db1Of_existing v env c hex]
          exact hex
  · have hrlf : (RateLimiter.isAllowed env.rl (getClientIP req) env.now).2.allowed = false := by
      revert hrl
      cases (RateLimiter.isAllowed env.rl (getClientIP req) env.now).2.allowed <;> simp
    have hP : (POST req env).db = env.db := by
      simp only [POST, hrlf]
      simp
    exact ⟨c, by rw [hP]; exact hex, rfl, rfl, rfl⟩

/-- Witness for C7 at the concrete POST on the existing session s1. -/
theorem userinfo_unchanged_witness :
    ∃ c2, (POST reqA envOkExisting).db vA.sessionId = some c2 ∧
      c2.userInfo = convA.userInfo ∧ c2.sessionId = convA.sessionId ∧
      c2.createdAt = convA.createdAt :=
  userinfo_unchanged reqA envOkExisting vA none convA (by decide) rfl
